import Mathlib

namespace MeeAd

/-!
Verification of the medical-advertisement risk-judgment pipeline
(`src/backend/ad_analyzer.py`, `src/backend/main.py`).

The Python source is shallowly embedded: pure functions become Lean
functions, the mutable `batch_status_store` dictionary becomes an explicit
function-valued store threaded through the operations, out-of-scope
collaborators (OCR engines, the two LLM calls, the RAG retriever, wall
clocks) become explicit outcome parameters, and raised exceptions become
`Except`/explicit error paths.  Machine integers are `Int`/`Nat`
(Python ints are unbounded, so no wrap-around modelling is needed).
-/
/-! ## RiskClassifier (`ad_analyzer.py`)

`calculate_risk_level`, `calculate_judgment` are the newer authoritative
6-band table; `_calculate_risk_level` is the legacy 4-band table still used
by `analyze_keywords`. -/
/-- Embeds `calculate_risk_level` (ad_analyzer.py lines 22-46): descending
threshold chain over the score. -/
def calculate_risk_level (risk_score : Int) : String :=
  if risk_score < 0 then "N/A"
  else if risk_score ≥ 81 then "CRITICAL"
  else if risk_score ≥ 61 then "HIGH"
  else if risk_score ≥ 31 then "MEDIUM"
  else if risk_score ≥ 11 then "LOW"
  else "SAFE"

/-- Embeds `calculate_judgment` (ad_analyzer.py lines 49-70): dictionary lookup
with default "주의" (`mapping.get(risk_level, "주의")`). -/
def calculate_judgment (risk_level : String) : String :=
  if risk_level = "N/A" then "불필요"
  else if risk_level = "SAFE" then "통과"
  else if risk_level = "LOW" then "주의"
  else if risk_level = "MEDIUM" then "수정제안"
  else if risk_level = "HIGH" then "수정권고"
  else if risk_level = "CRITICAL" then "게재불가"
  else "주의"

/-- Legacy `_calculate_risk_level` (ad_analyzer.py lines 219-230), still
used by `analyze_keywords`. -/
def legacy_calculate_risk_level (total_score : Int) : String :=
  if total_score ≥ 100 then "CRITICAL"
  else if total_score ≥ 50 then "HIGH"
  else if total_score ≥ 20 then "MEDIUM"
  else if total_score > 0 then "LOW"
  else "SAFE"

/-! ## Keyword scorer (`analyze_keywords`) -/
/-- One entry of the keyword dictionary.
Modelled from the spec: the `medical_keywords` module (`keyword_db`) is not
under `src/`; the spec describes it as "a keyword table mapping keyword →
(category, severity, law citation, description)". -/
structure KeywordEntry where
  keyword : String
  category : String
  severity : String
  law : String
  description : String

/-- The keyword dictionary collaborator.
Modelled from the spec: `keyword_db.get_all_keywords()` is the `entries`
list, `keyword_db.get_keyword_info` returns the entry fields, and
`keyword_db.get_severity_score` is `sevScore` ("severity-to-score mapping
(HIGH/MEDIUM/LOW → fixed constants)", constants unspecified). -/
structure KeywordDB where
  entries : List KeywordEntry
  sevScore : String → Int

/-- ASCII lower-casing, as applied by Python `str.lower()` to the
ASCII range (Korean text has no case; non-ASCII cased letters are outside
the modelled subset). -/
def lowerChar (c : Char) : Char :=
  if 65 ≤ c.toNat ∧ c.toNat ≤ 90 then Char.ofNat (c.toNat + 32) else c

def strLower (s : String) : String := String.mk (s.data.map lowerChar)

/-- Python regex `\s` on ASCII. -/
def pyWs (c : Char) : Bool :=
  c = ' ' ∨ c = '\t' ∨ c = '\n' ∨ c = '\r' ∨ c = '\x0b' ∨ c = '\x0c'

/-- Numeric value of a digit run. -/
def digitsToNat (l : List Char) : Nat :=
  l.foldl (fun acc c => acc * 10 + (c.toNat - 48)) 0

/-- Python `str.count(sub)`: number of non-overlapping occurrences,
scanning left to right; `s.count("") = len(s)+1`.  Fuel-driven recursion
(fuel ≥ length of the text suffices). -/
def pyCountAux (pat : List Char) : Nat → List Char → Nat
  | 0, _ => 0
  | _ + 1, [] => if List.isPrefixOf pat [] then 1 else 0
  | fuel + 1, c :: rest =>
      if List.isPrefixOf pat (c :: rest) then
        1 + pyCountAux pat fuel ((c :: rest).drop pat.length)
      else
        pyCountAux pat fuel rest

/-- Python `text.count(pat)` for nonempty `pat`; `len(text)+1` for empty. -/
def pyCount (text pat : String) : Nat :=
  if pat.data = [] then text.data.length + 1
  else pyCountAux pat.data text.data.length text.data

/-- Python `str.find(sub)`: index of first occurrence, or `-1` modelled as
`none`.  Only ASCII-level positions are needed by the claims. -/
def pyFindAux (pat : List Char) : List Char → Nat → Option Nat
  | [], i => if List.isPrefixOf pat [] then some i else none
  | c :: rest, i =>
      if List.isPrefixOf pat (c :: rest) then some i
      else pyFindAux pat rest (i + 1)

def pyFind (text pat : String) : Option Nat :=
  pyFindAux pat.data text.data 0

/-- Embeds `_extract_context` (ad_analyzer.py lines 198-216): ±`window` characters
around the first (case-insensitive) occurrence of the keyword, with
ellipses at clipped boundaries. -/
def extract_context (text keyword : String) (window : Nat := 30) : String :=
  match pyFind (strLower text) (strLower keyword) with
  | none => ""
  | some idx =>
      let start := idx - window
      let stop := min text.data.length (idx + keyword.data.length + window)
      let ctx := String.mk ((text.data.drop start).take (stop - start))
      let ctx := if start > 0 then "..." ++ ctx else ctx
      if stop < text.data.length then ctx ++ "..." else ctx

/-- One keyword-violation dictionary built by `analyze_keywords`
(ad_analyzer.py lines 174-185). -/
structure KwViolation where
  keyword : String
  category : String
  severity : String
  score : Int
  count : Nat
  repetition_bonus : Int
  total_score : Int
  law : String
  description : String
  context : String

/-! ## JSON values (stdlib `json.loads` model) -/
/-- JSON values as produced by Python `json.loads`.
Modelled from the spec: numbers are restricted to integers (the pipeline's
`risk_score` is an integer field). -/
inductive Json where
  | null : Json
  | bool (b : Bool) : Json
  | num (n : Int) : Json
  | str (s : String) : Json
  | arr (xs : List Json) : Json
  | obj (kvs : List (String × Json)) : Json

/-- Embeds `ViolationResult` (ad_analyzer.py lines 103-140).  `ai_violations` is
kept as a raw JSON value because the second-stage payload has a loose
schema (`final_judgment.get("violations", [])`). -/
structure ViolationResult where
  violations : List KwViolation := []
  risk_score : Int := 0
  risk_level : String := "SAFE"
  summary : String := ""
  ai_analysis : Option String := none
  ai_violations : Option Json := none
  judgment : String := "통과"
  keyword_risk_score : Int := 0

/-- Category aggregation of `_generate_summary` (ad_analyzer.py lines
240-244): counts per category in first-insertion order (Python dict). -/
def categoryCounts (vs : List KwViolation) : List (String × Nat) :=
  vs.foldl (fun acc v =>
    if acc.any (fun p => p.1 = v.category) then
      acc.map (fun p => if p.1 = v.category then (p.1, p.2 + 1) else p)
    else acc ++ [(v.category, 1)]) []

/-- Embeds `_generate_summary` (ad_analyzer.py lines 233-253). -/
def generate_summary (result : ViolationResult) : String :=
  if result.risk_score = 0 then "위반 키워드가 발견되지 않았습니다."
  else
    let category_summary := String.intercalate ", "
      ((categoryCounts result.violations).map
        (fun p => p.1 ++ " " ++ toString p.2 ++ "건"))
    "총 " ++ toString result.violations.length ++ "개의 위반 키워드 발견 (" ++
      category_summary ++ "). " ++ "위험도: " ++ result.risk_level ++
      ", 총점: " ++ toString result.risk_score ++ "점"

/-- The violation dictionary built for one matched keyword
(ad_analyzer.py lines 166-185). -/
def mkKwViolation (db : KeywordDB) (text : String) (e : KeywordEntry)
    (count : Nat) : KwViolation :=
  let base_score := db.sevScore e.severity
  let repetition_bonus : Int := if count > 1 then ((count : Int) - 1) * 5 else 0
  { keyword := e.keyword
    category := e.category
    severity := e.severity
    score := base_score
    count := count
    repetition_bonus := repetition_bonus
    total_score := base_score + repetition_bonus
    law := e.law
    description := e.description
    context := extract_context text e.keyword }

/-- Embeds `analyze_keywords` (ad_analyzer.py lines 143-195): scan every keyword
of the dictionary against the lower-cased text, accumulate violations and
the aggregate score, then derive the risk level through the *legacy*
table and generate the summary. -/
def kwStep (db : KeywordDB) (text : String) (r : ViolationResult)
    (e : KeywordEntry) : ViolationResult :=
  let count := pyCount (strLower text) (strLower e.keyword)
  if count > 0 then
    let v := mkKwViolation db text e count
    { r with violations := r.violations ++ [v],
             risk_score := r.risk_score + v.total_score }
  else r

def analyze_keywords (db : KeywordDB) (text : String) : ViolationResult :=
  let r := db.entries.foldl (kwStep db text) {}
  let r := { r with risk_level := legacy_calculate_risk_level r.risk_score }
  { r with summary := generate_summary r }

/-! ## Operations on `json.loads` values -/
/-- Python `dict` lookup for a JSON object built by `json.loads`:
with duplicate keys the last occurrence wins. -/
def pyLookup (kvs : List (String × Json)) (k : String) : Option Json :=
  (kvs.reverse.find? (fun kv => kv.1 = k)).map (fun kv => kv.2)

/-- Python `key in data` membership test for arbitrary `json.loads`
results: key lookup on dicts, element equality on lists, substring test on
strings; `TypeError` (modelled as `Except.error`) on numbers, booleans and
null. -/
def pyContains (k : String) : Json → Except String Bool
  | Json.obj kvs => Except.ok ((pyLookup kvs k).isSome)
  | Json.arr xs => Except.ok (xs.any (fun x => match x with
      | Json.str s => s = k
      | _ => false))
  | Json.str s => Except.ok ((pyFind s k).isSome)
  | _ => Except.error "TypeError: argument is not iterable"

/-- Python `int(x)` on a `json.loads` value: identity on ints, 0/1 on
booleans, digit-string parsing (optional sign, surrounding whitespace) on
strings, `TypeError`/`ValueError` (modelled as `Except.error`) otherwise. -/
def pyIntOfJson : Json → Except String Int
  | Json.num n => Except.ok n
  | Json.bool b => Except.ok (if b then 1 else 0)
  | Json.str s =>
      let t := String.mk ((s.data.dropWhile pyWs).reverse.dropWhile pyWs).reverse
      let core : List Char :=
        match t.data with
        | '-' :: rest => rest
        | '+' :: rest => rest
        | l => l
      if core ≠ [] ∧ core.all Char.isDigit then
        match t.data with
        | '-' :: _ => Except.ok (-(Int.ofNat (digitsToNat core)))
        | _ => Except.ok (Int.ofNat (digitsToNat core))
      else Except.error "ValueError: invalid literal for int"
  | _ => Except.error "TypeError: int() argument"

/-! ## `json.loads` (stdlib collaborator)

Modelled from the spec: `json.loads` is the Python standard library; it is
modelled here as a recursive-descent parser for the JSON subset the
pipeline exchanges (objects, arrays, strings with the simple escapes,
integers, booleans, null).  Floats and `\\u` escapes are outside the
modelled subset (the parser rejects them, where Python would accept). -/
/-- JSON whitespace characters (RFC 8259, as accepted by `json.loads`). -/
def jsonWsChar (c : Char) : Bool :=
  c = ' ' ∨ c = '\t' ∨ c = '\n' ∨ c = '\r'

def skipJsonWs (s : List Char) : List Char := s.dropWhile jsonWsChar

/-- String body parser: consumes up to the closing quote, handling the
simple escapes. -/
def parseStrAux : Nat → List Char → List Char → Option (String × List Char)
  | 0, _, _ => none
  | _ + 1, acc, '"' :: rest => some (String.mk acc.reverse, rest)
  | fuel + 1, acc, '\\' :: e :: rest =>
      let esc : Option Char :=
        if e = '"' then some '"'
        else if e = '\\' then some '\\'
        else if e = '/' then some '/'
        else if e = 'n' then some '\n'
        else if e = 't' then some '\t'
        else if e = 'r' then some '\r'
        else if e = 'b' then some '\x08'
        else if e = 'f' then some '\x0c'
        else none
      match esc with
      | some c => parseStrAux fuel (c :: acc) rest
      | none => none
  | fuel + 1, acc, c :: rest => parseStrAux fuel (c :: acc) rest
  | _, _, [] => none

/-- Integer token: optional minus, digits, no leading zero (JSON). -/
def parseIntTok (s : List Char) : Option (Int × List Char) :=
  let (neg, s1) := match s with
    | '-' :: rest => (true, rest)
    | _ => (false, s)
  let digits := s1.takeWhile Char.isDigit
  let rest := s1.drop digits.length
  if digits = [] then none
  else if digits.length > 1 ∧ digits.head? = some '0' then none
  else
    let n : Int := Int.ofNat (digitsToNat digits)
    some (if neg then -n else n, rest)

mutual

/-- JSON value parser (fuel-driven; fuel beyond the input length is
always sufficient). -/
def parseVal : Nat → List Char → Option (Json × List Char)
  | 0, _ => none
  | fuel + 1, s =>
      let s := skipJsonWs s
      if List.isPrefixOf "null".data s then some (Json.null, s.drop 4)
      else if List.isPrefixOf "true".data s then some (Json.bool true, s.drop 4)
      else if List.isPrefixOf "false".data s then some (Json.bool false, s.drop 5)
      else
        match s with
        | '"' :: rest =>
            match parseStrAux (rest.length + 1) [] rest with
            | some (str, rest2) => some (Json.str str, rest2)
            | none => none
        | '[' :: rest =>
            let rest1 := skipJsonWs rest
            match rest1 with
            | ']' :: rest2 => some (Json.arr [], rest2)
            | _ =>
                match parseArrItems fuel rest with
                | some (xs, rest2) => some (Json.arr xs, rest2)
                | none => none
        | '{' :: rest =>
            let rest1 := skipJsonWs rest
            match rest1 with
            | '}' :: rest2 => some (Json.obj [], rest2)
            | _ =>
                match parseObjItems fuel rest with
                | some (kvs, rest2) => some (Json.obj kvs, rest2)
                | none => none
        | _ =>
            match parseIntTok s with
            | some (n, rest) =>
                -- a following '.', 'e' or 'E' would be a float: outside
                -- the modelled subset
                match rest with
                | '.' :: _ => none
                | 'e' :: _ => none
                | 'E' :: _ => none
                | _ => some (Json.num n, rest)
            | none => none

/-- Comma-separated array elements up to `]`. -/
def parseArrItems : Nat → List Char → Option (List Json × List Char)
  | 0, _ => none
  | fuel + 1, s =>
      match parseVal fuel s with
      | none => none
      | some (v, rest) =>
          match skipJsonWs rest with
          | ',' :: rest2 =>
              match parseArrItems fuel rest2 with
              | some (xs, rest3) => some (v :: xs, rest3)
              | none => none
          | ']' :: rest2 => some ([v], rest2)
          | _ => none

/-- Comma-separated `"key": value` pairs up to `}`. -/
def parseObjItems : Nat → List Char → Option (List (String × Json) × List Char)
  | 0, _ => none
  | fuel + 1, s =>
      match skipJsonWs s with
      | '"' :: rest =>
          match parseStrAux (rest.length + 1) [] rest with
          | none => none
          | some (key, rest1) =>
              match skipJsonWs rest1 with
              | ':' :: rest2 =>
                  match parseVal fuel rest2 with
                  | none => none
                  | some (v, rest3) =>
                      match skipJsonWs rest3 with
                      | ',' :: rest4 =>
                          match parseObjItems fuel rest4 with
                          | some (kvs, rest5) => some ((key, v) :: kvs, rest5)
                          | none => none
                      | '}' :: rest4 => some ([(key, v)], rest4)
                      | _ => none
              | _ => none
      | _ => none

end

/-- Model of `json.loads`: parse one value, require only whitespace after it;
any failure is a `json.JSONDecodeError`, modelled as `none`. -/
def json_loads (s : String) : Option Json :=
  match parseVal (s.data.length + 1) s.data with
  | some (v, rest) => if skipJsonWs rest = [] then some v else none
  | none => none

/-! ## `parse_judgment_json` (ad_analyzer.py lines 444-477) -/
def dropTrailingWs (l : List Char) : List Char :=
  (l.reverse.dropWhile pyWs).reverse

def containsSub (l pat : List Char) : Bool :=
  (pyFindAux pat l 0).isSome

/-- Embeds `re.search(r"```json\s*(.*?)\s*```", response_text, re.DOTALL)`:
the match starts at the first occurrence of the literal ` ```json `, the
closing fence is the first ` ``` ` after the whitespace run, and the lazy
group strips surrounding whitespace. -/
def fencedJsonBlock (s : List Char) : Option (List Char) :=
  match pyFindAux "```json".data s 0 with
  | none => none
  | some i =>
      let rest := (s.drop (i + 7)).dropWhile pyWs
      match pyFindAux "```".data rest 0 with
      | none => none
      | some j => some (dropTrailingWs (rest.take j))

/-- Embeds the fallback regex search (a brace-delimited, brace-free span
holding the literal `"risk_score"`): the
leftmost `{` whose following brace character is `}` and whose brace-free
interior contains the literal `"risk_score"`; the whole match (braces
included) is returned. -/
def braceCandidate : List Char → Option (List Char)
  | [] => none
  | c :: rest =>
      if c = '{' then
        let inner := rest.takeWhile (fun ch => ch ≠ '{' ∧ ch ≠ '}')
        match rest.drop inner.length with
        | '}' :: _ =>
            if containsSub inner ('"' :: "risk_score".data ++ ['"']) then
              some ('{' :: inner ++ ['}'])
            else braceCandidate rest
        | _ => braceCandidate rest
      else braceCandidate rest

/-- Embeds `parse_judgment_json` (ad_analyzer.py lines 444-477).  The fenced
block is preferred; otherwise the brace-scan fallback.  `json.loads`
failure is caught (`except json.JSONDecodeError: pass`) and yields `none`;
the `"risk_score" in data` membership test on a non-container value raises
an uncaught `TypeError`, modelled as `Except.error`. -/
def parse_judgment_json (response_text : String) : Except String (Option Json) :=
  let candidate :=
    match fencedJsonBlock response_text.data with
    | some g => some g
    | none => braceCandidate response_text.data
  match candidate with
  | none => Except.ok none
  | some cand =>
      match json_loads (String.mk cand) with
      | none => Except.ok none
      | some data =>
          match pyContains "risk_score" data with
          | Except.error e => Except.error e
          | Except.ok true => Except.ok (some data)
          | Except.ok false => Except.ok none

/-! ## Judgment pipeline (`analyze_complete`, `analyze_complete_async`) -/
/-- Behaviour of the external collaborators of one
`analyze_complete_async` run: the first-stage reasoning call (which
`analyze_with_ai_async` always reduces to a string, catching its own
provider errors) and the second-stage reasoning call
(`Except.error` = the call raised; `Except.ok` = its `output_text`). -/
structure AsyncCollab where
  stage2Text : String
  extractResp : Except String String

/-- Embeds `extract_final_judgment` (ad_analyzer.py lines 480-552): send the
prompt to the second reasoning call and parse its response; any exception
(provider error, or the `TypeError` out of `parse_judgment_json`) is
caught and yields `none`. -/
def extract_final_judgment (resp : Except String String) : Option Json :=
  match resp with
  | Except.error _ => none
  | Except.ok t =>
      match parse_judgment_json t with
      | Except.error _ => none
      | Except.ok o => o

/-- Python truthiness of a `json.loads` value
(`if final_judgment.get("summary"):`). -/
def jsonTruthy : Option Json → Bool
  | none => false
  | some Json.null => false
  | some (Json.bool b) => b
  | some (Json.num n) => n ≠ 0
  | some (Json.str s) => s ≠ ""
  | some (Json.arr xs) => !xs.isEmpty
  | some (Json.obj kvs) => !kvs.isEmpty

/-- Display rendering of the dynamically-typed `summary` payload value;
stands in for Python storing the raw object in the `summary` slot (the
claims under verification never inspect `summary`). -/
def jsonDisplay : Json → String
  | Json.str s => s
  | Json.num n => toString n
  | Json.bool b => if b then "True" else "False"
  | Json.null => "None"
  | Json.arr _ => "[...]"
  | Json.obj _ => "\x7b...\x7d"

/-- Embeds `analyze_complete_async` (ad_analyzer.py lines 555-628).  Stage 1 is
the keyword scan (its score backed up into `keyword_risk_score`); when AI
is enabled and an API key exists, stage 2's prose lands in `ai_analysis`
and stage 3 attempts structured extraction.  On a successful extraction
whose payload is a dict with an `int()`-convertible `risk_score`, the
score/level/judgment are overwritten; a non-dict payload
(`AttributeError` on `.get`) or failing `int()` jumps to the outer
`except`, which replaces `ai_analysis` with an error string and keeps the
keyword-stage fields; extraction failure keeps the keyword result. -/
def analyze_complete_async (db : KeywordDB) (text : String)
    (use_ai hasApiKey : Bool) (c : AsyncCollab) : ViolationResult :=
  let r0 := analyze_keywords db text
  let r1 := { r0 with keyword_risk_score := r0.risk_score }
  if use_ai ∧ hasApiKey then
    let r2 := { r1 with ai_analysis := some c.stage2Text }
    match extract_final_judgment c.extractResp with
    | none => r2
    | some fj =>
        match fj with
        | Json.obj kvs =>
            let v := (pyLookup kvs "risk_score").getD (Json.num r1.keyword_risk_score)
            match pyIntOfJson v with
            | Except.error e => { r1 with ai_analysis := some ("AI 분석 실패: " ++ e) }
            | Except.ok n =>
                let lvl := calculate_risk_level n
                let r3 := { r2 with
                  risk_score := n
                  risk_level := lvl
                  judgment := calculate_judgment lvl
                  ai_violations := some ((pyLookup kvs "violations").getD (Json.arr [])) }
                let sv := pyLookup kvs "summary"
                if jsonTruthy sv then
                  { r3 with summary := jsonDisplay (sv.getD Json.null) }
                else r3
        | _ => { r1 with ai_analysis := some "AI 분석 실패: AttributeError" }
  else r1

/-- Embeds `analyze_complete` (ad_analyzer.py lines 329-353): keyword scan, then
optionally the free-text AI pass whose result (or error string) lands in
`ai_analysis`; nothing else is touched. -/
def analyze_complete (db : KeywordDB) (text : String)
    (use_ai hasApiKey : Bool) (aiText : Except String String) : ViolationResult :=
  let r := analyze_keywords db text
  if use_ai ∧ hasApiKey then
    match aiText with
    | Except.ok t => { r with ai_analysis := some t }
    | Except.error e => { r with ai_analysis := some ("AI 분석 실패: " ++ e) }
  else r

/-! ## Batch orchestration (`main.py`)

The FastAPI module-level dictionary `batch_status_store` is embedded as a
function-valued store `String → Option BatchStatus` threaded explicitly.
The event loop is cooperative and every task's aggregate-update section
runs without awaiting, so a batch execution is modelled as a fold over the
per-task outcomes in completion order.  Wall-clock values (ISO timestamps,
elapsed seconds, the ETA timestamp) are opaque parameters. -/
/-- Embeds `FileStatus` (main.py lines 351-357). -/
structure FileStatus where
  filename : String
  status : String
  progress : Int
  error : Option String := none

/-- The result dictionary of `process_single_file_async`
(main.py lines 530-574). -/
structure TaskResult where
  filename : String
  success : Bool
  error : Option String
  ocr_text : Option String
  analysis : Option ViolationResult

/-- Embeds `BatchAnalysisStatus` (main.py lines 360-373), with the pydantic
defaults. -/
structure BatchStatus where
  batch_id : String
  status : String
  total_files : Int
  processed_files : Int
  progress_percent : Rat
  results : List TaskResult
  errors : List String
  start_time : Option String := none
  estimated_completion : Option String := none
  elapsed_seconds : Rat := 0
  current_phase : String := "uploading"
  file_statuses : List FileStatus := []

/-- The in-memory `batch_status_store` dictionary. -/
def Store := String → Option BatchStatus

/-- The durable `uploads/batch_results/{batch_id}.json` records. -/
structure PersistedBatch where
  batch_id : String
  total_files : Int
  processed_files : Int
  results : List TaskResult
  errors : List String
  completed_at : String

def Durable := String → Option PersistedBatch

/-- Python truthiness of the optional `error` argument
(`if error:` in `update_file_status`). -/
def strTruthy : Option String → Bool
  | some s => s ≠ ""
  | none => false

/-- The scan-and-mutate loop of `update_file_status` (main.py lines
450-461): the first entry with the given filename gets the new status and
progress (and the error only when truthy); with no match a new entry is
appended at the end. -/
def updFileStatuses (filename status : String) (progress : Int)
    (error : Option String) : List FileStatus → List FileStatus
  | [] => [{ filename := filename, status := status, progress := progress,
             error := error }]
  | f :: rest =>
      if f.filename = filename then
        { f with status := status, progress := progress,
                 error := if strTruthy error then error else f.error } :: rest
      else f :: updFileStatuses filename status progress error rest

/-- Embeds `update_file_status` (main.py lines 431-461): silent no-op when the
batch id is absent from the store; otherwise rewrites only the matching
file-status entry of that batch. -/
def update_file_status (store : Store) (batch_id filename status : String)
    (progress : Int) (error : Option String) : Store :=
  match store batch_id with
  | none => store
  | some b =>
      fun k => if k = batch_id then
        some { b with file_statuses :=
                 updFileStatuses filename status progress error b.file_statuses }
      else store k

/-- Eviction test of `cleanup_old_batches` (main.py lines 407-420):
terminal status and (falsy `start_time`, unparseable `start_time`, or age
beyond the retention window).  `ageOlder s = none` models
`datetime.fromisoformat(s)` raising; `some b` models the comparison
`(now - start_time) > max_age`. -/
def shouldEvict (ageOlder : String → Option Bool) (b : BatchStatus) : Bool :=
  (b.status == "completed" || b.status == "failed") &&
    (match b.start_time with
     | none => true
     | some s => if s = "" then true else (ageOlder s).getD true)

/-- Embeds `cleanup_old_batches` (main.py lines 398-428): delete every evictable
batch from the in-memory store. -/
def cleanup_old_batches (ageOlder : String → Option Bool) (store : Store) : Store :=
  fun k =>
    match store k with
    | some b => if shouldEvict ageOlder b then none else some b
    | none => none

/-- Behaviour of one task's external collaborators: the OCR call either
returns `success=False` (carrying the value of
`ocr_result.get("error", "OCR 실패")`), raises, yields text after which the
analysis pipeline raises, or yields text and a completed analysis. -/
inductive TaskOutcome where
  | ocrFail (errVal : Option String)
  | ocrExn (msg : String)
  | pipeExn (msg : String)
  | ok (ocr_text : String) (analysis : ViolationResult)

/-- Embeds `process_single_file_async` (main.py lines 496-574): status updates
around the OCR and analysis phases; every exception inside the body is
caught and becomes a `success=False` result, never a raise. -/
def process_single_file_async (store : Store) (batch_id : Option String)
    (filename : String) (outcome : TaskOutcome) : Store × TaskResult :=
  let upd := fun (st : Store) (sta : String) (pr : Int) (err : Option String) =>
    match batch_id with
    | some b => if b ≠ "" then update_file_status st b filename sta pr err else st
    | none => st
  let store1 := upd store "ocr" 20 none
  match outcome with
  | TaskOutcome.ocrFail errVal =>
      (upd store1 "failed" 0 errVal,
       { filename := filename, success := false, error := errVal,
         ocr_text := none, analysis := none })
  | TaskOutcome.ocrExn msg =>
      (upd store1 "failed" 0 (some msg),
       { filename := filename, success := false,
         error := some ("처리 중 오류: " ++ msg),
         ocr_text := none, analysis := none })
  | TaskOutcome.pipeExn msg =>
      let store2 := upd store1 "analyzing" 50 none
      (upd store2 "failed" 0 (some msg),
       { filename := filename, success := false,
         error := some ("처리 중 오류: " ++ msg),
         ocr_text := none, analysis := none })
  | TaskOutcome.ok text analysis =>
      let store2 := upd store1 "analyzing" 50 none
      let store3 := upd store2 "completed" 100 none
      (store3,
       { filename := filename, success := true, error := none,
         ocr_text := some text, analysis := some analysis })

/-- The post-task aggregate update of `process_with_semaphore`
(main.py lines 615-655): bump `processed_files`, recompute the progress
percentage and timing fields, append the result, and append an error line
when the task failed. -/
def completeTask (batch_id : String) (elapsedNow : Rat) (etaNow : String)
    (store : Store) (filename : String) (result : TaskResult) : Store :=
  match store batch_id with
  | none => store
  | some b =>
      let processed := b.processed_files + 1
      let b := { b with
        processed_files := processed
        progress_percent := (processed : Rat) / (b.total_files : Rat) * 100
        elapsed_seconds := elapsedNow }
      let b := if processed > 0 then
          { b with estimated_completion := some etaNow } else b
      let b := { b with results := b.results ++ [result] }
      let b := if !result.success then
          { b with errors := b.errors ++
              [filename ++ ": " ++ (result.error.getD "알 수 없는 오류")] }
        else b
      fun k => if k = batch_id then some b else store k

/-- The initialisation block of `batch_analyze_files`
(main.py lines 598-607). -/
def initBatch (batch_id startStr : String) (names : List String)
    (store : Store) : Store :=
  match store batch_id with
  | none => store
  | some b =>
      fun k => if k = batch_id then
        some { b with start_time := some startStr,
                      current_phase := "analyzing",
                      file_statuses := names.map (fun n =>
                        { filename := n, status := "pending", progress := 0 }) }
      else store k

/-- The terminal phase of `batch_analyze_files` (main.py lines 664-691):
mark the batch `completed` and write the durable JSON record; if the
write raises (`persist = Except.error`), the batch is marked `failed`
with an appended error and nothing durable is written.  A batch id absent
from the store skips both. -/
def batchFinalize (batch_id completedAt : String) (persist : Except String Unit)
    (store : Store) (durable : Durable) : Store × Durable :=
  match store batch_id with
  | none => (store, durable)
  | some b =>
      match persist with
      | Except.ok _ =>
          (fun k => if k = batch_id then some { b with status := "completed" }
                    else store k,
           fun k => if k = batch_id then
               some { batch_id := batch_id
                      total_files := b.total_files
                      processed_files := b.processed_files
                      results := b.results
                      errors := b.errors
                      completed_at := completedAt }
             else durable k)
      | Except.error e =>
          (fun k => if k = batch_id then
               some { b with status := "failed"
                             errors := b.errors ++ ["배치 처리 실패: " ++ e] }
             else store k,
           durable)

/-- Embeds `batch_analyze_files` (main.py lines 577-691): initialise, run every
task in completion order (isolated failures;
`asyncio.gather(..., return_exceptions=True)`), then finalise. -/
def batch_analyze_files (batch_id : String) (tasks : List (String × TaskOutcome))
    (startStr : String) (elapsedNow : Rat) (etaNow completedAt : String)
    (persist : Except String Unit) (store : Store) (durable : Durable) :
    Store × Durable :=
  batchFinalize batch_id completedAt persist
    (tasks.foldl (fun st t =>
        let p := process_single_file_async st (some batch_id) t.1 t.2
        completeTask batch_id elapsedNow etaNow p.1 t.1 p.2)
      (initBatch batch_id startStr (tasks.map Prod.fst) store))
    durable

/-- The record created at batch submission (main.py lines 941-950). -/
def initialBatchRecord (batch_id : String) (total : Int) : BatchStatus :=
  { batch_id := batch_id, status := "processing", total_files := total,
    processed_files := 0, progress_percent := 0, results := [], errors := [] }

/-- Embeds `get_batch_status` (main.py lines 974-1006): the in-memory record if
present, otherwise a reconstruction from the durable JSON record
(status `completed`, progress 100), otherwise `none` (HTTP 404). -/
def get_batch_status (store : Store) (durable : Durable)
    (batch_id : String) : Option BatchStatus :=
  match store batch_id with
  | some b => some b
  | none =>
      match durable batch_id with
      | some d =>
          some { batch_id := d.batch_id, status := "completed",
                 total_files := d.total_files,
                 processed_files := d.processed_files,
                 progress_percent := 100, results := d.results,
                 errors := d.errors }
      | none => none

/-- The violations contributed by a run of the keyword loop. -/
def kwViolationsOf (db : KeywordDB) (text : String)
    (entries : List KeywordEntry) : List KwViolation :=
  entries.filterMap (fun e =>
    let c := pyCount (strLower text) (strLower e.keyword)
    if c > 0 then some (mkKwViolation db text e c) else none)

/-- A concrete keyword-dictionary instance for witnesses and
counterexamples (the real `medical_keywords` contents are out of scope;
any instance is admissible). -/
def demoDB : KeywordDB :=
  { entries := [{ keyword := "보장", category := "과장광고", severity := "HIGH",
                  law := "의료법 제56조", description := "효과 보장 표현" }],
    sevScore := fun s => if s = "HIGH" then 30 else if s = "MEDIUM" then 20 else 10 }

/-- Second-stage collaborator that raises (provider error). -/
def demoFailCollab : AsyncCollab :=
  { stage2Text := "분석 프로즈", extractResp := Except.error "연결 실패" }

/-- Second-stage collaborator answering with an out-of-range score. -/
def demoCollab150 : AsyncCollab :=
  { stage2Text := "분석 프로즈"
    extractResp := Except.ok "```json\n\x7b\"risk_score\": 150\x7d\n```" }

/-- Second-stage collaborator answering with an in-range score. -/
def demoCollab42 : AsyncCollab :=
  { stage2Text := "분석 프로즈"
    extractResp := Except.ok "```json\n\x7b\"risk_score\": 42\x7d\n```" }

/-- Equality of the aggregate fields of two batch records (everything a
`update_file_status` call must not touch, `file_statuses` apart). -/
def aggEq (b' b : BatchStatus) : Prop :=
  b'.batch_id = b.batch_id ∧ b'.status = b.status
  ∧ b'.total_files = b.total_files ∧ b'.processed_files = b.processed_files
  ∧ b'.progress_percent = b.progress_percent ∧ b'.results = b.results
  ∧ b'.errors = b.errors ∧ b'.start_time = b.start_time
  ∧ b'.estimated_completion = b.estimated_completion
  ∧ b'.elapsed_seconds = b.elapsed_seconds
  ∧ b'.current_phase = b.current_phase

/-- The per-file result dictionary determined by the task's outcome. -/
def taskResult (filename : String) : TaskOutcome → TaskResult
  | TaskOutcome.ocrFail errVal =>
      { filename := filename, success := false, error := errVal,
        ocr_text := none, analysis := none }
  | TaskOutcome.ocrExn msg =>
      { filename := filename, success := false,
        error := some ("처리 중 오류: " ++ msg), ocr_text := none, analysis := none }
  | TaskOutcome.pipeExn msg =>
      { filename := filename, success := false,
        error := some ("처리 중 오류: " ++ msg), ocr_text := none, analysis := none }
  | TaskOutcome.ok text analysis =>
      { filename := filename, success := true, error := none,
        ocr_text := some text, analysis := some analysis }

/-- The error line appended for a task, `none` on success. -/
def errLine (t : String × TaskOutcome) : Option String :=
  if (taskResult t.1 t.2).success then none
  else some (t.1 ++ ": " ++ ((taskResult t.1 t.2).error.getD "알 수 없는 오류"))

def outcomeFails : TaskOutcome → Bool
  | TaskOutcome.ok _ _ => false
  | _ => true

def demoStore : Store :=
  fun k => if k = "배치1" then some (initialBatchRecord "배치1" 2) else none

def demoDurable : Durable := fun _ => none

def demoTasks : List (String × TaskOutcome) :=
  [("f1.png", TaskOutcome.ok "광고 텍스트" {}),
   ("f2.png", TaskOutcome.ocrFail (some "이미지 손상"))]

def demoStore9 : Store :=
  fun k => if k = "지속" then some (initialBatchRecord "지속" 1) else none

/-- The run of C9's counterexample: the persistence write raises. -/
def demoRun9 : Store × Durable :=
  batch_analyze_files "지속" [("f1.png", TaskOutcome.ok "광고 텍스트" {})]
    "2026-01-01T00:00:00" 0 "eta" "done" (Except.error "디스크 오류")
    demoStore9 demoDurable

def emptyStore : Store := fun _ => none

def demoStore10 : Store :=
  fun k => if k = "배치A" then
    some { initialBatchRecord "배치A" 1 with
             file_statuses := [{ filename := "f1.png", status := "pending",
                                 progress := 0 }] }
  else none

/-- Claim C1: for every integer risk score, `calculate_risk_level` returns
the band of the authoritative table (negative scores N/A, 0-10 SAFE,
11-30 LOW, 31-60 MEDIUM, 61-80 HIGH, 81 and above CRITICAL, each band
inclusive at its lower bound), and `calculate_judgment` maps the six risk
levels one-to-one onto their verdict labels (N/A to 불필요, SAFE to 통과,
LOW to 주의, MEDIUM to 수정제안, HIGH to 수정권고, CRITICAL to 게재불가). -/
theorem C1_risk_table_and_judgment :
    (∀ s : Int, calculate_risk_level s =
      (if s < 0 then "N/A" else if s ≤ 10 then "SAFE" else if s ≤ 30 then "LOW"
       else if s ≤ 60 then "MEDIUM" else if s ≤ 80 then "HIGH" else "CRITICAL"))
    ∧ calculate_judgment "N/A" = "불필요"
    ∧ calculate_judgment "SAFE" = "통과"
    ∧ calculate_judgment "LOW" = "주의"
    ∧ calculate_judgment "MEDIUM" = "수정제안"
    ∧ calculate_judgment "HIGH" = "수정권고"
    ∧ calculate_judgment "CRITICAL" = "게재불가"
    ∧ (["N/A", "SAFE", "LOW", "MEDIUM", "HIGH", "CRITICAL"].map calculate_judgment).Nodup := by
  refine ⟨fun s => ?_, by decide, by decide, by decide, by decide, by decide, by decide, by decide⟩
  unfold calculate_risk_level
  split_ifs <;> first | rfl | omega

/-- Counterexample to claim C2 as stated: at score 50 the legacy
keyword-path table yields HIGH while the authoritative table yields
MEDIUM, so the two tables are not the same function. -/
theorem C2_cex :
    legacy_calculate_risk_level 50 = "HIGH" ∧ calculate_risk_level 50 = "MEDIUM" ∧
      legacy_calculate_risk_level 50 ≠ calculate_risk_level 50 := by
  refine ⟨rfl, rfl, ?_⟩
  decide

/-- Claim C2 (amended): the keyword-only path derives risk levels from
the legacy 4-band `_calculate_risk_level`, which agrees with the
authoritative `calculate_risk_level` exactly at score 0, on 11-19, 31-49,
61-80 and at 100 and above, and disagrees everywhere else (negative
scores, 1-10, 20-30, 50-60, 81-99); the section 4.3 mapping is therefore
not the single source of truth for the keyword path. -/
theorem C2_agreement (s : Int) :
    legacy_calculate_risk_level s = calculate_risk_level s ↔
      (s = 0 ∨ (11 ≤ s ∧ s ≤ 19) ∨ (31 ≤ s ∧ s ≤ 49) ∨ (61 ≤ s ∧ s ≤ 80) ∨ 100 ≤ s) := by
  unfold legacy_calculate_risk_level calculate_risk_level
  split_ifs <;> simp <;> omega

lemma foldl_kwStep (db : KeywordDB) (text : String) :
    ∀ (entries : List KeywordEntry) (r : ViolationResult),
      entries.foldl (kwStep db text) r =
        { r with violations := r.violations ++ kwViolationsOf db text entries,
                 risk_score := r.risk_score +
                   ((kwViolationsOf db text entries).map (fun v => v.total_score)).sum } := by
  intro entries
  induction entries with
  | nil => intro r; cases r; simp [kwViolationsOf]
  | cons e es ih =>
      intro r
      by_cases h : pyCount (strLower text) (strLower e.keyword) > 0
      · simp only [List.foldl_cons, kwStep, h, if_pos, ih]
        cases r
        simp [kwViolationsOf, List.filterMap_cons, h, add_assoc]
      · simp only [List.foldl_cons, kwStep, h, if_neg, ih]
        cases r
        simp [kwViolationsOf, List.filterMap_cons, h]

lemma analyze_keywords_eq (db : KeywordDB) (text : String) :
    analyze_keywords db text =
      { violations := kwViolationsOf db text db.entries,
        risk_score := ((kwViolationsOf db text db.entries).map (fun v => v.total_score)).sum,
        risk_level := legacy_calculate_risk_level
          (((kwViolationsOf db text db.entries).map (fun v => v.total_score)).sum),
        summary := generate_summary
          { violations := kwViolationsOf db text db.entries,
            risk_score := ((kwViolationsOf db text db.entries).map (fun v => v.total_score)).sum,
            risk_level := legacy_calculate_risk_level
              (((kwViolationsOf db text db.entries).map (fun v => v.total_score)).sum) } } := by
  unfold analyze_keywords
  rw [foldl_kwStep]
  simp

lemma mkKwViolation_spec (db : KeywordDB) (text : String) (e : KeywordEntry)
    (c : Nat) (h : 1 ≤ c) :
    (mkKwViolation db text e c).keyword = e.keyword
    ∧ (mkKwViolation db text e c).count = c
    ∧ (mkKwViolation db text e c).score = db.sevScore e.severity
    ∧ (mkKwViolation db text e c).repetition_bonus =
        (if 1 < c then ((c : Int) - 1) * 5 else 0)
    ∧ (mkKwViolation db text e c).total_score =
        (mkKwViolation db text e c).score + (mkKwViolation db text e c).repetition_bonus
    ∧ (mkKwViolation db text e c).total_score = db.sevScore e.severity + ((c : Int) - 1) * 5 := by
  unfold mkKwViolation
  by_cases h2 : 1 < c
  · simp [h2]
  · have hc1 : c = 1 := by omega
    subst hc1
    simp

/-- Claim C7: every violation recorded by `analyze_keywords` has
occurrence count at least 1, repetition bonus `(count-1)*5` for count
above 1 and 0 otherwise, and per-keyword total `base + (count-1)*5`;
every dictionary keyword with a case-insensitive occurrence count of at
least 1 contributes such a violation; and the aggregate risk score is the
sum of the per-keyword totals. -/
theorem C7_keyword_scoring (db : KeywordDB) (text : String) :
    (∀ v ∈ (analyze_keywords db text).violations,
        1 ≤ v.count
        ∧ v.repetition_bonus = (if 1 < v.count then ((v.count : Int) - 1) * 5 else 0)
        ∧ v.total_score = v.score + v.repetition_bonus
        ∧ v.total_score = v.score + ((v.count : Int) - 1) * 5)
    ∧ (∀ e ∈ db.entries, ∀ c : Nat,
        c = pyCount (strLower text) (strLower e.keyword) → 1 ≤ c →
        ∃ v ∈ (analyze_keywords db text).violations,
          v.keyword = e.keyword ∧ v.count = c
          ∧ v.score = db.sevScore e.severity
          ∧ v.total_score = db.sevScore e.severity + ((c : Int) - 1) * 5)
    ∧ (analyze_keywords db text).risk_score =
        ((analyze_keywords db text).violations.map (fun v => v.total_score)).sum := by
  rw [analyze_keywords_eq]
  refine ⟨?_, ?_, rfl⟩
  · intro v hv
    simp only [kwViolationsOf, List.mem_filterMap] at hv
    obtain ⟨e, he, hfe⟩ := hv
    by_cases h : pyCount (strLower text) (strLower e.keyword) > 0
    · simp only [h, if_pos] at hfe
      cases hfe
      obtain ⟨-, hcnt, hsc, hbon, htot, htot2⟩ :=
        mkKwViolation_spec db text e (pyCount (strLower text) (strLower e.keyword)) h
      exact ⟨by omega, by rw [hbon, hcnt], htot, by rw [htot2, hcnt, hsc]⟩
    · simp [h] at hfe
  · intro e he c hc h1
    obtain ⟨hk, hc2, hs, -, -, -⟩ := mkKwViolation_spec db text e c h1
    refine ⟨mkKwViolation db text e c, ?_, hk, hc2, hs, ?_⟩
    · simp only [kwViolationsOf, List.mem_filterMap]
      exact ⟨e, he, by rw [← hc]; simp [show c > 0 by omega]⟩
    · exact (mkKwViolation_spec db text e c h1).2.2.2.2.2

/-- Witness for claim C7: a keyword occurring three times contributes
`base + 2*5 = 40`, never `3*base = 90`. -/
theorem C7_keyword_scoring_witness :
    ∃ v ∈ (analyze_keywords demoDB "보장 과 보장 과 보장").violations,
      v.keyword = "보장" ∧ v.count = 3 ∧ v.total_score = 30 + 2 * 5
      ∧ v.total_score ≠ 3 * 30 := by
  obtain ⟨-, h2, -⟩ := C7_keyword_scoring demoDB "보장 과 보장 과 보장"
  obtain ⟨v, hv, hk, hc, hs, ht⟩ :=
    h2 { keyword := "보장", category := "과장광고", severity := "HIGH",
         law := "의료법 제56조", description := "효과 보장 표현" }
      (by simp [demoDB]) 3 (by decide) (by decide)
  refine ⟨v, hv, hk, hc, ?_, ?_⟩
  · rw [ht]; rfl
  · rw [ht]; decide

/-- Counterexample to claim C3 as stated: a keyword-only result with
score 30 carries risk level MEDIUM (legacy table) although
`calculate_risk_level 30` is LOW, and carries judgment 통과 although
`calculate_judgment` of its own level would be 수정제안, so
`analyze_keywords` results do not satisfy the authoritative equations. -/
theorem C3_cex :
    (analyze_keywords demoDB "보장").risk_score = 30
    ∧ (analyze_keywords demoDB "보장").risk_level = "MEDIUM"
    ∧ calculate_risk_level 30 = "LOW"
    ∧ (analyze_keywords demoDB "보장").risk_level ≠
        calculate_risk_level ((analyze_keywords demoDB "보장").risk_score)
    ∧ (analyze_keywords demoDB "보장").judgment ≠
        calculate_judgment ((analyze_keywords demoDB "보장").risk_level) := by
  refine ⟨rfl, rfl, rfl, ?_, ?_⟩ <;> decide

/-- Fields of `analyze_complete_async` when AI is disabled or no API key
is configured. -/
lemma async_no_ai_fields (db : KeywordDB) (text : String) (ua key : Bool)
    (c : AsyncCollab) (h : ¬(ua ∧ key)) :
    analyze_complete_async db text ua key c =
      { analyze_keywords db text with
          keyword_risk_score := (analyze_keywords db text).risk_score } := by
  unfold analyze_complete_async
  rw [if_neg h]

/-- Fields of `analyze_complete_async` when structured extraction fails
(no payload). -/
lemma async_extract_none_fields (db : KeywordDB) (text : String)
    (key : Bool) (c : AsyncCollab)
    (h : extract_final_judgment c.extractResp = none) :
    (analyze_complete_async db text true key c).risk_score =
        (analyze_keywords db text).risk_score
    ∧ (analyze_complete_async db text true key c).keyword_risk_score =
        (analyze_keywords db text).risk_score
    ∧ (analyze_complete_async db text true key c).risk_level =
        (analyze_keywords db text).risk_level
    ∧ (analyze_complete_async db text true key c).judgment =
        (analyze_keywords db text).judgment := by
  by_cases hk : (true : Bool) ∧ key
  · unfold analyze_complete_async
    rw [if_pos hk, h]
    exact ⟨rfl, rfl, rfl, rfl⟩
  · rw [async_no_ai_fields db text true key c hk]
    exact ⟨rfl, rfl, rfl, rfl⟩

/-- Fields of `analyze_complete_async` on the successful-extraction path:
payload is a dict and `int()` conversion of its `risk_score` succeeds. -/
lemma async_success_fields (db : KeywordDB) (text : String) (c : AsyncCollab)
    (kvs : List (String × Json)) (n : Int)
    (h1 : extract_final_judgment c.extractResp = some (Json.obj kvs))
    (h2 : pyIntOfJson ((pyLookup kvs "risk_score").getD
        (Json.num (analyze_keywords db text).risk_score)) = Except.ok n) :
    (analyze_complete_async db text true true c).risk_score = n
    ∧ (analyze_complete_async db text true true c).risk_level =
        calculate_risk_level n
    ∧ (analyze_complete_async db text true true c).judgment =
        calculate_judgment (calculate_risk_level n)
    ∧ (analyze_complete_async db text true true c).keyword_risk_score =
        (analyze_keywords db text).risk_score := by
  unfold analyze_complete_async
  rw [if_pos ⟨rfl, rfl⟩, h1]
  dsimp only
  rw [h2]
  dsimp only
  by_cases hs : jsonTruthy (pyLookup kvs "summary") = true
  · rw [if_pos hs]
    exact ⟨rfl, rfl, rfl, rfl⟩
  · rw [if_neg hs]
    exact ⟨rfl, rfl, rfl, rfl⟩

/-- Fields of `analyze_complete_async` when the extraction payload is a
dict but `int()` of its `risk_score` value raises. -/
lemma async_intfail_fields (db : KeywordDB) (text : String) (c : AsyncCollab)
    (kvs : List (String × Json)) (e : String)
    (h1 : extract_final_judgment c.extractResp = some (Json.obj kvs))
    (h2 : pyIntOfJson ((pyLookup kvs "risk_score").getD
        (Json.num (analyze_keywords db text).risk_score)) = Except.error e) :
    (analyze_complete_async db text true true c).risk_score =
        (analyze_keywords db text).risk_score
    ∧ (analyze_complete_async db text true true c).risk_level =
        (analyze_keywords db text).risk_level
    ∧ (analyze_complete_async db text true true c).judgment =
        (analyze_keywords db text).judgment := by
  unfold analyze_complete_async
  rw [if_pos ⟨rfl, rfl⟩, h1]
  dsimp only
  rw [h2]
  exact ⟨rfl, rfl, rfl⟩

/-- Fields of `analyze_complete_async` when the extraction payload is not
a dict (`.get` raises `AttributeError`). -/
lemma async_nondict_fields (db : KeywordDB) (text : String) (c : AsyncCollab)
    (fj : Json)
    (h1 : extract_final_judgment c.extractResp = some fj)
    (h2 : ∀ kvs, fj ≠ Json.obj kvs) :
    (analyze_complete_async db text true true c).risk_score =
        (analyze_keywords db text).risk_score
    ∧ (analyze_complete_async db text true true c).risk_level =
        (analyze_keywords db text).risk_level
    ∧ (analyze_complete_async db text true true c).judgment =
        (analyze_keywords db text).judgment := by
  unfold analyze_complete_async
  rw [if_pos ⟨rfl, rfl⟩, h1]
  cases fj with
  | obj kvs => exact absurd rfl (h2 kvs)
  | null => exact ⟨rfl, rfl, rfl⟩
  | bool b => exact ⟨rfl, rfl, rfl⟩
  | num m => exact ⟨rfl, rfl, rfl⟩
  | str s => exact ⟨rfl, rfl, rfl⟩
  | arr xs => exact ⟨rfl, rfl, rfl⟩

/-- Claim C3 (amended): risk level and judgment are pure functions of the
risk score on every path, but only the successful-extraction path of
`analyze_complete_async` uses the authoritative pair
(`calculate_risk_level`, `calculate_judgment`); `analyze_keywords` derives
its level from the legacy `_calculate_risk_level` and leaves the judgment
at its default 통과, and every non-success path of
`analyze_complete_async` keeps those keyword-stage fields. -/
theorem C3_amended (db : KeywordDB) (text : String) (ua key : Bool)
    (c : AsyncCollab) :
    ((analyze_keywords db text).risk_level =
        legacy_calculate_risk_level (analyze_keywords db text).risk_score
      ∧ (analyze_keywords db text).judgment = "통과")
    ∧ (((analyze_complete_async db text ua key c).risk_level =
          calculate_risk_level (analyze_complete_async db text ua key c).risk_score
        ∧ (analyze_complete_async db text ua key c).judgment =
          calculate_judgment (analyze_complete_async db text ua key c).risk_level)
       ∨ ((analyze_complete_async db text ua key c).risk_level =
            legacy_calculate_risk_level
              (analyze_complete_async db text ua key c).risk_score
          ∧ (analyze_complete_async db text ua key c).judgment = "통과")) := by
  have hkw : (analyze_keywords db text).risk_level =
      legacy_calculate_risk_level (analyze_keywords db text).risk_score
      ∧ (analyze_keywords db text).judgment = "통과" := by
    rw [analyze_keywords_eq]; exact ⟨rfl, rfl⟩
  refine ⟨hkw, ?_⟩
  by_cases hak : ua ∧ key
  · obtain ⟨hu, hk⟩ := hak
    cases ua with
    | false => exact absurd hu (by simp)
    | true =>
    cases key with
    | false => exact absurd hk (by simp)
    | true =>
    cases hE : extract_final_judgment c.extractResp with
    | none =>
        obtain ⟨h1, -, h3, h4⟩ := async_extract_none_fields db text true c hE
        exact Or.inr ⟨by rw [h1, h3, hkw.1], by rw [h4, hkw.2]⟩
    | some fj =>
        by_cases hobj : ∃ kvs, fj = Json.obj kvs
        · obtain ⟨kvs, rfl⟩ := hobj
          cases hI : pyIntOfJson ((pyLookup kvs "risk_score").getD
              (Json.num (analyze_keywords db text).risk_score)) with
          | error e =>
              obtain ⟨h1, hlvl, hj⟩ := async_intfail_fields db text c kvs e hE hI
              exact Or.inr ⟨by rw [hlvl, h1]; exact hkw.1, by rw [hj]; exact hkw.2⟩
          | ok n =>
              obtain ⟨h1, h2, h3, -⟩ := async_success_fields db text c kvs n hE hI
              exact Or.inl ⟨by rw [h2, h1], by rw [h3, h2]⟩
        · have hne : ∀ kvs, fj ≠ Json.obj kvs := fun kvs h => hobj ⟨kvs, h⟩
          obtain ⟨h1, hlvl, hj⟩ := async_nondict_fields db text c fj hE hne
          exact Or.inr ⟨by rw [hlvl, h1]; exact hkw.1, by rw [hj]; exact hkw.2⟩
  · rw [async_no_ai_fields db text ua key c hak]
    exact Or.inr ⟨hkw.1, hkw.2⟩

/-- Claim C4: whenever structured extraction fails (no payload from
`parse_judgment_json`, or the second reasoning call errors),
`analyze_complete_async` reports a risk score equal to the keyword-stage
score (`keyword_risk_score`); in particular it never reports 0 merely
because extraction failed on a text whose keyword score is non-zero. -/
theorem C4_extraction_failure_keeps_keyword_score (db : KeywordDB)
    (text : String) (key : Bool) (c : AsyncCollab)
    (h : extract_final_judgment c.extractResp = none) :
    (analyze_complete_async db text true key c).risk_score =
        (analyze_keywords db text).risk_score
    ∧ (analyze_complete_async db text true key c).risk_score =
        (analyze_complete_async db text true key c).keyword_risk_score
    ∧ ((analyze_keywords db text).risk_score ≠ 0 →
        (analyze_complete_async db text true key c).risk_score ≠ 0) := by
  obtain ⟨h1, h2, -, -⟩ := async_extract_none_fields db text key c h
  exact ⟨h1, by rw [h1, h2], fun hz => by rw [h1]; exact hz⟩

/-- Witness for claim C4 at a concrete dictionary, text and failing
collaborator: the keyword score 30 survives extraction failure. -/
theorem C4_extraction_failure_keeps_keyword_score_witness :
    extract_final_judgment demoFailCollab.extractResp = none
    ∧ (analyze_keywords demoDB "보장").risk_score = 30
    ∧ (analyze_complete_async demoDB "보장" true true demoFailCollab).risk_score = 30
    ∧ (analyze_complete_async demoDB "보장" true true demoFailCollab).risk_score ≠ 0 := by
  have h := C4_extraction_failure_keeps_keyword_score demoDB "보장" true
    demoFailCollab rfl
  refine ⟨rfl, rfl, ?_, ?_⟩
  · rw [h.1]; rfl
  · exact h.2.2 (by decide)

/-- Claim C5 (amended): whenever structured extraction succeeds with a
dict payload whose `risk_score` converts via `int()`, the reported
risk score equals that integer unchanged — the code applies no clamping
to the range [-1, 100]. -/
theorem C5_no_clamp (db : KeywordDB) (text : String) (c : AsyncCollab)
    (kvs : List (String × Json)) (n : Int)
    (h1 : extract_final_judgment c.extractResp = some (Json.obj kvs))
    (h2 : pyIntOfJson ((pyLookup kvs "risk_score").getD
        (Json.num (analyze_keywords db text).risk_score)) = Except.ok n) :
    (analyze_complete_async db text true true c).risk_score = n
    ∧ (analyze_complete_async db text true true c).risk_level =
        calculate_risk_level n := by
  obtain ⟨ha, hb, -, -⟩ := async_success_fields db text c kvs n h1 h2
  exact ⟨ha, hb⟩

/-- Witness for claim C5 (amended) at a concrete collaborator returning
42: the reported score is 42. -/
theorem C5_no_clamp_witness :
    extract_final_judgment demoCollab42.extractResp =
        some (Json.obj [("risk_score", Json.num 42)])
    ∧ (analyze_complete_async demoDB "" true true demoCollab42).risk_score = 42 := by
  exact ⟨rfl,
    (C5_no_clamp demoDB "" demoCollab42 [("risk_score", Json.num 42)] 42
      rfl rfl).1⟩

/-- Counterexample to claim C5 as stated: a collaborator answering
risk_score 150 makes `analyze_complete_async` report 150 itself, not the
clamped value 100. -/
theorem C5_cex :
    (analyze_complete_async demoDB "" true true demoCollab150).risk_score = 150
    ∧ ¬((analyze_complete_async demoDB "" true true demoCollab150).risk_score ≤ 100) := by
  exact ⟨rfl, by decide⟩

/-- Claim C8 (code bug exhibit): `parse_judgment_json` follows the
documented two-strategy selection and returns dict payloads or `None` on
the ordinary paths (first two conjuncts), but on a fenced block holding a
JSON string containing the characters `risk_score` it returns that string
as the payload (violating its own `Optional[Dict]` contract), and on a
fenced block holding a JSON number the `in` membership test raises an
uncaught `TypeError` instead of returning `None`. -/
theorem C8_parse_judgment_eval :
    parse_judgment_json "```json\n\x7b\"risk_score\": 3\x7d\n```" =
      Except.ok (some (Json.obj [("risk_score", Json.num 3)]))
    ∧ parse_judgment_json "no payload at all" = Except.ok none
    ∧ parse_judgment_json "```json\n\"risk_score is mentioned\"\n```" =
      Except.ok (some (Json.str "risk_score is mentioned"))
    ∧ parse_judgment_json "```json\n7\n```" =
      Except.error "TypeError: argument is not iterable" := by
  exact ⟨rfl, rfl, rfl, rfl⟩

lemma aggEq_refl (b : BatchStatus) : aggEq b b :=
  ⟨rfl, rfl, rfl, rfl, rfl, rfl, rfl, rfl, rfl, rfl, rfl⟩

lemma aggEq_trans {a b c : BatchStatus} (h1 : aggEq a b) (h2 : aggEq b c) :
    aggEq a c := by
  obtain ⟨x1, x2, x3, x4, x5, x6, x7, x8, x9, x10, x11⟩ := h1
  obtain ⟨y1, y2, y3, y4, y5, y6, y7, y8, y9, y10, y11⟩ := h2
  exact ⟨x1.trans y1, x2.trans y2, x3.trans y3, x4.trans y4, x5.trans y5,
    x6.trans y6, x7.trans y7, x8.trans y8, x9.trans y9, x10.trans y10,
    x11.trans y11⟩

/-- Frame lemma: `update_file_status` preserves presence and aggregate fields at every
key. -/
lemma update_file_status_aggEq (st : Store) (bid fn sta : String) (pr : Int)
    (err : Option String) (k : String) :
    (st k = none → update_file_status st bid fn sta pr err k = none)
    ∧ ∀ b, st k = some b →
        ∃ b', update_file_status st bid fn sta pr err k = some b' ∧ aggEq b' b := by
  unfold update_file_status
  cases hsb : st bid with
  | none => exact ⟨fun h => h, fun b hb => ⟨b, hb, aggEq_refl b⟩⟩
  | some bb =>
      by_cases hk : k = bid
      · subst hk
        refine ⟨fun h => ?_, fun b hb => ?_⟩
        · rw [h] at hsb; cases hsb
        · rw [hb] at hsb
          cases hsb
          exact ⟨{ bb with file_statuses := updFileStatuses fn sta pr err bb.file_statuses },
            by simp, rfl, rfl, rfl, rfl, rfl, rfl, rfl, rfl, rfl, rfl, rfl⟩
      · exact ⟨fun h => by simp [hk, h], fun b hb => ⟨b, by simp [hk, hb], aggEq_refl b⟩⟩

lemma process_single_result (st : Store) (bidOpt : Option String)
    (fn : String) (o : TaskOutcome) :
    (process_single_file_async st bidOpt fn o).2 = taskResult fn o := by
  cases o <;> rfl

/-- The store after `process_single_file_async` preserves presence and
aggregate fields at every key. -/
lemma process_single_aggEq (st : Store) (bidOpt : Option String)
    (fn : String) (o : TaskOutcome) (k : String) :
    (st k = none → (process_single_file_async st bidOpt fn o).1 k = none)
    ∧ ∀ b, st k = some b →
        ∃ b', (process_single_file_async st bidOpt fn o).1 k = some b'
          ∧ aggEq b' b := by
  have step : ∀ (st' : Store) (sta : String) (pr : Int) (err : Option String),
      ((st' k = none →
        (match bidOpt with
         | some bb => if bb ≠ "" then update_file_status st' bb fn sta pr err else st'
         | none => st') k = none)
      ∧ ∀ b, st' k = some b →
          ∃ b', (match bidOpt with
            | some bb => if bb ≠ "" then update_file_status st' bb fn sta pr err else st'
            | none => st') k = some b' ∧ aggEq b' b) := by
    intro st' sta pr err
    cases bidOpt with
    | none => exact ⟨fun h => h, fun b hb => ⟨b, hb, aggEq_refl b⟩⟩
    | some bb =>
        dsimp only
        by_cases hbb : bb ≠ ""
        · rw [if_pos hbb]
          exact update_file_status_aggEq st' bb fn sta pr err k
        · rw [if_neg hbb]
          exact ⟨fun h => h, fun b hb => ⟨b, hb, aggEq_refl b⟩⟩
  cases o with
  | ocrFail errVal =>
      unfold process_single_file_async
      obtain ⟨n1, s1⟩ := step st "ocr" 20 none
      obtain ⟨n2, s2⟩ := step _ "failed" 0 errVal
      refine ⟨fun h => n2 (n1 h), fun b hb => ?_⟩
      obtain ⟨b1, h1, a1⟩ := s1 b hb
      obtain ⟨b2, h2, a2⟩ := s2 b1 h1
      exact ⟨b2, h2, aggEq_trans a2 a1⟩
  | ocrExn msg =>
      unfold process_single_file_async
      obtain ⟨n1, s1⟩ := step st "ocr" 20 none
      obtain ⟨n2, s2⟩ := step _ "failed" 0 (some msg)
      refine ⟨fun h => n2 (n1 h), fun b hb => ?_⟩
      obtain ⟨b1, h1, a1⟩ := s1 b hb
      obtain ⟨b2, h2, a2⟩ := s2 b1 h1
      exact ⟨b2, h2, aggEq_trans a2 a1⟩
  | pipeExn msg =>
      unfold process_single_file_async
      obtain ⟨n1, s1⟩ := step st "ocr" 20 none
      obtain ⟨n2, s2⟩ := step _ "analyzing" 50 none
      obtain ⟨n3, s3⟩ := step _ "failed" 0 (some msg)
      refine ⟨fun h => n3 (n2 (n1 h)), fun b hb => ?_⟩
      obtain ⟨b1, h1, a1⟩ := s1 b hb
      obtain ⟨b2, h2, a2⟩ := s2 b1 h1
      obtain ⟨b3, h3, a3⟩ := s3 b2 h2
      exact ⟨b3, h3, aggEq_trans a3 (aggEq_trans a2 a1)⟩
  | ok text analysis =>
      unfold process_single_file_async
      obtain ⟨n1, s1⟩ := step st "ocr" 20 none
      obtain ⟨n2, s2⟩ := step _ "analyzing" 50 none
      obtain ⟨n3, s3⟩ := step _ "completed" 100 none
      refine ⟨fun h => n3 (n2 (n1 h)), fun b hb => ?_⟩
      obtain ⟨b1, h1, a1⟩ := s1 b hb
      obtain ⟨b2, h2, a2⟩ := s2 b1 h1
      obtain ⟨b3, h3, a3⟩ := s3 b2 h2
      exact ⟨b3, h3, aggEq_trans a3 (aggEq_trans a2 a1)⟩

/-- Aggregate effect of `completeTask`: appends one result, one error line for a failure, and
bumps `processed_files`; status and totals unchanged. -/
lemma completeTask_agg (bid : String) (el : Rat) (eta : String) (st : Store)
    (fn : String) (r : TaskResult) (b : BatchStatus) (hb : st bid = some b) :
    ∃ b2, completeTask bid el eta st fn r bid = some b2
      ∧ b2.status = b.status ∧ b2.total_files = b.total_files
      ∧ b2.processed_files = b.processed_files + 1
      ∧ b2.results = b.results ++ [r]
      ∧ b2.errors = b.errors ++
          (if r.success then []
           else [fn ++ ": " ++ (r.error.getD "알 수 없는 오류")]) := by
  unfold completeTask
  rw [hb]
  by_cases hp : b.processed_files + 1 > 0 <;>
    by_cases hs : r.success <;>
      simp [hp, hs]

/-- Behaviour of `completeTask` when the batch id is absent. -/
lemma completeTask_none (bid : String) (el : Rat) (eta : String) (st : Store)
    (fn : String) (r : TaskResult) (h : st bid = none) :
    completeTask bid el eta st fn r = st := by
  unfold completeTask
  rw [h]

/-- The task loop of `batch_analyze_files`: aggregate effect over the
whole task list, in completion order. -/
lemma batch_fold_agg (bid : String) (el : Rat) (eta : String) :
    ∀ (tasks : List (String × TaskOutcome)) (st : Store) (b : BatchStatus),
      st bid = some b →
      ∃ b', (tasks.foldl (fun st t =>
          let p := process_single_file_async st (some bid) t.1 t.2
          completeTask bid el eta p.1 t.1 p.2) st) bid = some b'
        ∧ b'.status = b.status
        ∧ b'.total_files = b.total_files
        ∧ b'.processed_files = b.processed_files + tasks.length
        ∧ b'.results = b.results ++ tasks.map (fun t => taskResult t.1 t.2)
        ∧ b'.errors = b.errors ++ tasks.filterMap errLine := by
  intro tasks
  induction tasks with
  | nil => exact fun st b hb => ⟨b, hb, rfl, rfl, by simp, by simp, by simp⟩
  | cons t ts ih =>
      intro st b hb
      obtain ⟨b1, h1, a1⟩ := (process_single_aggEq st (some bid) t.1 t.2 bid).2 b hb
      obtain ⟨b2, h2, e1, e2, e3, e4, e5⟩ :=
        completeTask_agg bid el eta (process_single_file_async st (some bid) t.1 t.2).1
          t.1 (process_single_file_async st (some bid) t.1 t.2).2 b1 h1
      rw [process_single_result st (some bid) t.1 t.2] at e4 e5
      obtain ⟨b3, h3, f1, f2, f3, f4, f5⟩ := ih _ b2 h2
      obtain ⟨-, g2, g3, g4, -, g6, g7, -, -, -, -⟩ := a1
      refine ⟨b3, ?_, ?_, ?_, ?_, ?_, ?_⟩
      · simpa using h3
      · rw [f1, e1, g2]
      · rw [f2, e2, g3]
      · rw [f3, e3, g4]
        push_cast [List.length_cons]
        ring
      · rw [f4, e4, g6]
        simp
      · rw [f5, e5, g7]
        by_cases hs : (taskResult t.1 t.2).success <;>
          simp [errLine, hs, List.filterMap_cons]

lemma taskResult_success (fn : String) (o : TaskOutcome) :
    (taskResult fn o).success = !outcomeFails o := by
  cases o <;> rfl

lemma initBatch_agg (bid startStr : String) (names : List String)
    (st : Store) (b : BatchStatus) (hb : st bid = some b) :
    ∃ b1, initBatch bid startStr names st bid = some b1
      ∧ b1.status = b.status ∧ b1.total_files = b.total_files
      ∧ b1.processed_files = b.processed_files
      ∧ b1.results = b.results ∧ b1.errors = b.errors := by
  unfold initBatch
  rw [hb]
  exact ⟨{ b with
      start_time := some startStr
      current_phase := "analyzing"
      file_statuses := names.map (fun n =>
        { filename := n, status := "pending", progress := 0 }) },
    by simp, rfl, rfl, rfl, rfl, rfl⟩

lemma filterMap_errLine_length :
    ∀ ts : List (String × TaskOutcome),
      (List.filterMap errLine ts).length =
        (ts.filter (fun t => outcomeFails t.2)).length := by
  intro ts
  induction ts with
  | nil => rfl
  | cons t rest ih =>
      by_cases h : outcomeFails t.2
      · have hs : (taskResult t.1 t.2).success = false := by
          rw [taskResult_success, h]; rfl
        simp [errLine, List.filterMap_cons, hs, h, ih]
      · have hs : (taskResult t.1 t.2).success = true := by
          rw [taskResult_success]
          simp at h
          rw [h]; rfl
        simp [errLine, List.filterMap_cons, hs, h, ih]

lemma map_taskResult_success_count :
    ∀ ts : List (String × TaskOutcome),
      ((ts.map (fun t => taskResult t.1 t.2)).filter (fun r => r.success)).length =
        (ts.filter (fun t => !outcomeFails t.2)).length := by
  intro ts
  induction ts with
  | nil => rfl
  | cons t rest ih =>
      by_cases h : outcomeFails t.2
      · have hs : (taskResult t.1 t.2).success = false := by
          rw [taskResult_success, h]; rfl
        simp [hs, h, ih]
      · have hs : (taskResult t.1 t.2).success = true := by
          rw [taskResult_success]
          simp at h
          rw [h]; rfl
        simp [hs, h, ih]

lemma filter_not_length (ts : List (String × TaskOutcome)) :
    (ts.filter (fun t => !outcomeFails t.2)).length =
      ts.length - (ts.filter (fun t => outcomeFails t.2)).length := by
  have h := List.length_eq_length_filter_add (l := ts) (fun t => outcomeFails t.2)
  simp only [] at h
  omega

lemma batchFinalize_ok (bid completedAt : String) (st : Store)
    (durable : Durable) (b : BatchStatus) (hb : st bid = some b) :
    (batchFinalize bid completedAt (Except.ok ()) st durable).1 bid =
        some { b with status := "completed" }
    ∧ (batchFinalize bid completedAt (Except.ok ()) st durable).2 bid =
        some { batch_id := bid, total_files := b.total_files,
               processed_files := b.processed_files, results := b.results,
               errors := b.errors, completed_at := completedAt } := by
  unfold batchFinalize
  rw [hb]
  exact ⟨by simp, by simp⟩

lemma batchFinalize_err (bid completedAt e : String) (st : Store)
    (durable : Durable) (b : BatchStatus) (hb : st bid = some b) :
    (batchFinalize bid completedAt (Except.error e) st durable).1 bid =
        some { b with status := "failed",
                      errors := b.errors ++ ["배치 처리 실패: " ++ e] }
    ∧ (batchFinalize bid completedAt (Except.error e) st durable).2 = durable := by
  unfold batchFinalize
  rw [hb]
  exact ⟨by simp, rfl⟩

/-- Claim C6: for a batch whose tasks contain exactly one failure (OCR
failure, OCR exception or pipeline exception) among N tasks, started from
a fresh batch record, `batch_analyze_files` still reaches status
`completed` with `processed_files = N`, N results of which exactly N-1
have a true success flag, and exactly one entry in `errors`; no sibling
task and not the batch is aborted. -/
theorem C6_single_failure_isolated (bid startStr : String) (el : Rat)
    (eta completedAt : String) (tasks : List (String × TaskOutcome))
    (st : Store) (durable : Durable) (b0 : BatchStatus)
    (hb : st bid = some b0) (h0 : b0.processed_files = 0)
    (hres : b0.results = []) (herr : b0.errors = [])
    (hone : (tasks.filter (fun t => outcomeFails t.2)).length = 1) :
    ∃ b, (batch_analyze_files bid tasks startStr el eta completedAt
        (Except.ok ()) st durable).1 bid = some b
      ∧ b.status = "completed"
      ∧ b.processed_files = tasks.length
      ∧ b.results.length = tasks.length
      ∧ (b.results.filter (fun r => r.success)).length = tasks.length - 1
      ∧ b.errors.length = 1 := by
  obtain ⟨b1, h1, i1, i2, i3, i4, i5⟩ :=
    initBatch_agg bid startStr (tasks.map Prod.fst) st b0 hb
  obtain ⟨b2, h2, s1, s2, s3, s4, s5⟩ := batch_fold_agg bid el eta tasks _ b1 h1
  refine ⟨{ b2 with status := "completed" },
    (batchFinalize_ok bid completedAt _ durable b2 h2).1, rfl, ?_, ?_, ?_, ?_⟩
  · show b2.processed_files = (tasks.length : Int)
    rw [s3, i3, h0]
    simp
  · show b2.results.length = tasks.length
    rw [s4, i4, hres]
    simp
  · show (b2.results.filter (fun r => r.success)).length = tasks.length - 1
    rw [s4, i4, hres]
    simp only [List.nil_append]
    rw [map_taskResult_success_count, filter_not_length, hone]
  · show b2.errors.length = 1
    rw [s5, i5, herr]
    simp only [List.nil_append]
    rw [filterMap_errLine_length, hone]

/-- Claim C9 (amended): a batch whose run completes with a successful
persistence write is durably recorded at completion time — before any
sweep can run — and `get_batch_status` still answers (with a completed
record) after an arbitrary cleanup pass, from memory or from the durable
record; the unamended claim fails for batches that end `failed`. -/
theorem C9_completed_persisted (bid startStr : String) (el : Rat)
    (eta completedAt : String) (tasks : List (String × TaskOutcome))
    (st : Store) (durable : Durable) (b0 : BatchStatus)
    (hb : st bid = some b0) :
    ∃ d, (batch_analyze_files bid tasks startStr el eta completedAt
        (Except.ok ()) st durable).2 bid = some d
      ∧ d.batch_id = bid
      ∧ ∀ age, ∃ r, get_batch_status
          (cleanup_old_batches age
            (batch_analyze_files bid tasks startStr el eta completedAt
              (Except.ok ()) st durable).1)
          (batch_analyze_files bid tasks startStr el eta completedAt
            (Except.ok ()) st durable).2 bid = some r
          ∧ r.status = "completed" := by
  obtain ⟨b1, h1, i1, -, -, -, -⟩ :=
    initBatch_agg bid startStr (tasks.map Prod.fst) st b0 hb
  obtain ⟨b2, h2, -, -, -, -, -⟩ := batch_fold_agg bid el eta tasks _ b1 h1
  have hfin := batchFinalize_ok bid completedAt _ durable b2 h2
  refine ⟨_, hfin.2, rfl, ?_⟩
  intro age
  unfold batch_analyze_files at hfin ⊢
  unfold get_batch_status cleanup_old_batches
  rw [hfin.1]
  dsimp only
  by_cases he : shouldEvict age { b2 with status := "completed" } = true
  · rw [if_pos he, hfin.2]
    exact ⟨_, rfl, rfl⟩
  · rw [if_neg he]
    exact ⟨_, rfl, rfl⟩

/-- Witness for claim C6 on a concrete two-task batch whose second task
fails at the OCR stage. -/
theorem C6_single_failure_isolated_witness :
    demoStore "배치1" = some (initialBatchRecord "배치1" 2)
    ∧ (demoTasks.filter (fun t => outcomeFails t.2)).length = 1
    ∧ ∃ b, (batch_analyze_files "배치1" demoTasks "t0" 0 "eta" "done"
          (Except.ok ()) demoStore demoDurable).1 "배치1" = some b
        ∧ b.status = "completed" ∧ b.processed_files = 2
        ∧ b.results.length = 2
        ∧ (b.results.filter (fun r => r.success)).length = 1
        ∧ b.errors.length = 1 := by
  refine ⟨rfl, rfl, ?_⟩
  obtain ⟨b, h, h1, h2, h3, h4, h5⟩ :=
    C6_single_failure_isolated "배치1" "t0" 0 "eta" "done" demoTasks demoStore
      demoDurable (initialBatchRecord "배치1" 2) rfl rfl rfl rfl rfl
  exact ⟨b, h, h1, by rw [h2]; rfl, by rw [h3]; rfl, by rw [h4]; rfl, h5⟩

/-- Counterexample to claim C9 as stated: a batch whose persistence
write raises ends in the terminal status `failed`, nothing is written
durably, and after the sweep evicts it `get_batch_status` returns
not-found. -/
theorem C9_cex :
    (demoRun9.1 "지속").map (fun b => b.status) = some "failed"
    ∧ demoRun9.2 "지속" = none
    ∧ get_batch_status (cleanup_old_batches (fun _ => some true) demoRun9.1)
        demoRun9.2 "지속" = none :=
  ⟨rfl, rfl, rfl⟩

/-- Witness for claim C9 (amended) on a concrete completed batch and an
always-evicting sweep. -/
theorem C9_completed_persisted_witness :
    demoStore "배치1" = some (initialBatchRecord "배치1" 2)
    ∧ ∃ d, (batch_analyze_files "배치1" demoTasks "t0" 0 "eta" "done"
          (Except.ok ()) demoStore demoDurable).2 "배치1" = some d
        ∧ d.batch_id = "배치1"
        ∧ ∃ r, get_batch_status
            (cleanup_old_batches (fun _ => some true)
              (batch_analyze_files "배치1" demoTasks "t0" 0 "eta" "done"
                (Except.ok ()) demoStore demoDurable).1)
            (batch_analyze_files "배치1" demoTasks "t0" 0 "eta" "done"
              (Except.ok ()) demoStore demoDurable).2 "배치1" = some r
            ∧ r.status = "completed" := by
  refine ⟨rfl, ?_⟩
  obtain ⟨d, hd, hbid, hq⟩ :=
    C9_completed_persisted "배치1" "t0" 0 "eta" "done" demoTasks demoStore
      demoDurable (initialBatchRecord "배치1" 2) rfl
  exact ⟨d, hd, hbid, hq (fun _ => some true)⟩

lemma updFileStatuses_preserve (fn sta : String) (pr : Int)
    (err : Option String) :
    ∀ l : List FileStatus,
      (updFileStatuses fn sta pr err l).filter (fun f => f.filename ≠ fn) =
        l.filter (fun f => f.filename ≠ fn) := by
  intro l
  induction l with
  | nil => simp [updFileStatuses]
  | cons f rest ih =>
      by_cases h : f.filename = fn
      · simp [updFileStatuses, h]
      · simp [updFileStatuses, h]
        simpa using ih

lemma updFileStatuses_append (fn sta : String) (pr : Int)
    (err : Option String) :
    ∀ l : List FileStatus, (∀ f ∈ l, f.filename ≠ fn) →
      updFileStatuses fn sta pr err l =
        l ++ [{ filename := fn, status := sta, progress := pr, error := err }] := by
  intro l
  induction l with
  | nil => intro _; rfl
  | cons f rest ih =>
      intro hall
      have hf : f.filename ≠ fn := hall f (List.mem_cons_self f rest)
      simp only [updFileStatuses, hf, if_neg, List.cons_append]
      rw [ih (fun g hg => hall g (List.mem_cons_of_mem f hg))]
      simp

/-- Claim C10: `update_file_status` is total; with an absent batch id it
returns the store unchanged, and with a present batch id it changes no
other batch, no aggregate field of the batch (status, counts, results,
errors, progress, timing, phase), leaves every entry for other filenames
untouched, and appends a fresh entry when no entry matches the
filename. -/
theorem C10_update_file_status_frame (st : Store) (bid fn sta : String)
    (pr : Int) (err : Option String) :
    (st bid = none → update_file_status st bid fn sta pr err = st)
    ∧ (∀ k, k ≠ bid → update_file_status st bid fn sta pr err k = st k)
    ∧ (∀ b, st bid = some b →
        ∃ b', update_file_status st bid fn sta pr err bid = some b'
          ∧ aggEq b' b
          ∧ b'.file_statuses.filter (fun f => f.filename ≠ fn) =
              b.file_statuses.filter (fun f => f.filename ≠ fn)
          ∧ ((∀ f ∈ b.file_statuses, f.filename ≠ fn) →
              b'.file_statuses = b.file_statuses ++
                [{ filename := fn, status := sta, progress := pr, error := err }])) := by
  refine ⟨?_, ?_, ?_⟩
  · intro h
    unfold update_file_status
    rw [h]
  · intro k hk
    unfold update_file_status
    cases hsb : st bid with
    | none => rfl
    | some bb => simp [hk]
  · intro b hb
    unfold update_file_status
    rw [hb]
    exact ⟨{ b with file_statuses := updFileStatuses fn sta pr err b.file_statuses },
      by simp,
      ⟨rfl, rfl, rfl, rfl, rfl, rfl, rfl, rfl, rfl, rfl, rfl⟩,
      updFileStatuses_preserve fn sta pr err b.file_statuses,
      updFileStatuses_append fn sta pr err b.file_statuses⟩

/-- Witness for claim C10 on the empty store (absent id) and on a
concrete one-file batch (present id). -/
theorem C10_update_file_status_frame_witness :
    update_file_status emptyStore "없는배치" "f1.png" "ocr" 20 none = emptyStore
    ∧ ∃ b', update_file_status demoStore10 "배치A" "f1.png" "ocr" 20 none "배치A" =
          some b'
        ∧ b'.status = "processing" ∧ b'.processed_files = 0
        ∧ b'.results = [] ∧ b'.errors = []
        ∧ b'.file_statuses.filter (fun f => f.filename ≠ "f1.png") = [] := by
  constructor
  · exact (C10_update_file_status_frame emptyStore "없는배치" "f1.png" "ocr" 20 none).1 rfl
  · obtain ⟨b', hb', hagg, hfil, -⟩ :=
      (C10_update_file_status_frame demoStore10 "배치A" "f1.png" "ocr" 20 none).2.2
        { initialBatchRecord "배치A" 1 with
            file_statuses := [{ filename := "f1.png", status := "pending",
                                progress := 0 }] } rfl
    obtain ⟨-, hst, -, hpr, -, hres, herr, -, -, -, -⟩ := hagg
    exact ⟨b', hb', hst, hpr, hres, herr, by rw [hfil]; rfl⟩

end MeeAd
